import Mathlib

/-!
Shallow embedding of `src/squashfs-tools/unsquash-3.c`: the legacy
(version-3) squashfs metadata decoder.  Pure decode logic is translated
into executable Lean functions; the out-of-scope I/O layer
(`read_fs_bytes`, `read_block`, `read_inode_data`,
`read_directory_data`, `read_ids`) is modelled by explicit environment
records carrying the success/failure of each read and the bytes it
would deliver.  Machine integers are modelled as `Nat` (unsigned
fields, counts) and `Int` (signed `long long` offsets); the source's
overflow comments certify that the arithmetic used here stays in
range, so no wraparound modelling is needed.
-/

namespace Unsquash3

/-! ## Format constants (from squashfs_compat.h, as used by unsquash-3.c) -/

def SQUASHFS_MAGIC : Nat := 0x73717368

def SQUASHFS_MAGIC_SWAP : Nat := 0x68737173

/-- `SQUASHFS_INVALID_BLK` is `(long long) -1`, the "no such table" sentinel. -/
def SQUASHFS_INVALID_BLK : Int := -1

/-- `SQUASHFS_INVALID_FRAG`: 32-bit all-ones "no tail fragment" sentinel. -/
def SQUASHFS_INVALID_FRAG : Nat := 0xffffffff

/-- `SQUASHFS_GUIDS`: the 8-bit sentinel gid index meaning "same as the uid". -/
def SQUASHFS_GUIDS : Nat := 255

def SQUASHFS_NAME_LEN : Nat := 256

def SQUASHFS_DIR_COUNT : Nat := 256

def SQUASHFS_METADATA_SIZE : Nat := 8192

/-- `SQUASHFS_INVALID_XATTR`: legacy images carry no xattr index. -/
def SQUASHFS_INVALID_XATTR : Int := -1

/-! ## Byte swapping

The on-disk record of a foreign-endian image has every multi-byte field
byte-reversed.  `SQUASHFS_SWAP_SUPER_BLOCK_3` reverses each field
according to its width; we model the three widths that occur. -/

/-- The `k` least-significant base-256 digits of `n`, little-endian. -/
def bytesLE : Nat → Nat → List Nat
  | 0, _ => []
  | k + 1, n => n % 256 :: bytesLE k (n / 256)

/-- Recompose a little-endian byte list into a number. -/
def fromBytesLE : List Nat → Nat
  | [] => 0
  | b :: bs => b + 256 * fromBytesLE bs

/-- Reverse the `k` bytes of a `k`-byte value. -/
def bswapBytes (k : Nat) (n : Nat) : Nat :=
  fromBytesLE (List.reverse (bytesLE k n))

def bswap16 (n : Nat) : Nat := bswapBytes 2 n

def bswap32 (n : Nat) : Nat := bswapBytes 4 n

def bswap64 (n : Nat) : Nat := bswapBytes 8 n

/-! ## The raw on-disk superblock record

Modelled from the spec: `squashfs_super_block_3` itself lives in
`squashfs_compat.h`, which is not part of the source under study; the
field list follows the spec's data model (magic, major/minor version,
inode/fragment/uid/gid counts, block size and its log2, flags, the
region start offsets, total bytes used, root inode locator) restricted
to the fields `read_super_3` actually copies.  Widths: 32-bit for
magic/counts/times/block size, 16-bit for version numbers and the block
log, 8-bit for flags and the uid/gid counts, 64-bit for offsets. -/

structure RawSuper where
  s_magic : Nat
  inodes : Nat
  mkfs_time : Nat
  block_size : Nat
  fragments : Nat
  block_log : Nat
  flags : Nat
  s_major : Nat
  s_minor : Nat
  root_inode : Nat
  bytes_used : Nat
  inode_table_start : Nat
  directory_table_start : Nat
  fragment_table_start : Nat
  lookup_table_start : Nat
  no_uids : Nat
  no_guids : Nat
  uid_start : Nat
  guid_start : Nat
  deriving Repr, DecidableEq

/-- Field-width well-formedness of a raw record (what any record read from
a real image satisfies). -/
def RawSuper.Wf (r : RawSuper) : Prop :=
  r.s_magic < 2^32 ∧ r.inodes < 2^32 ∧ r.mkfs_time < 2^32 ∧
  r.block_size < 2^32 ∧ r.fragments < 2^32 ∧ r.block_log < 2^16 ∧
  r.flags < 2^8 ∧ r.s_major < 2^16 ∧ r.s_minor < 2^16 ∧
  r.root_inode < 2^64 ∧ r.bytes_used < 2^64 ∧
  r.inode_table_start < 2^64 ∧ r.directory_table_start < 2^64 ∧
  r.fragment_table_start < 2^64 ∧ r.lookup_table_start < 2^64 ∧
  r.no_uids < 2^8 ∧ r.no_guids < 2^8 ∧
  r.uid_start < 2^64 ∧ r.guid_start < 2^64

instance (r : RawSuper) : Decidable r.Wf := by
  unfold RawSuper.Wf; infer_instance

/-- `SQUASHFS_SWAP_SUPER_BLOCK_3`: byte-reverse every multi-byte field of
the record.  8-bit fields (flags, uid/gid counts) are unchanged. -/
def swapSuper (r : RawSuper) : RawSuper where
  s_magic := bswap32 r.s_magic
  inodes := bswap32 r.inodes
  mkfs_time := bswap32 r.mkfs_time
  block_size := bswap32 r.block_size
  fragments := bswap32 r.fragments
  block_log := bswap16 r.block_log
  flags := r.flags
  s_major := bswap16 r.s_major
  s_minor := bswap16 r.s_minor
  root_inode := bswap64 r.root_inode
  bytes_used := bswap64 r.bytes_used
  inode_table_start := bswap64 r.inode_table_start
  directory_table_start := bswap64 r.directory_table_start
  fragment_table_start := bswap64 r.fragment_table_start
  lookup_table_start := bswap64 r.lookup_table_start
  no_uids := r.no_uids
  no_guids := r.no_guids
  uid_start := bswap64 r.uid_start
  guid_start := bswap64 r.guid_start

/-- Reinterpret a 64-bit unsigned raw field as the signed `long long` the
decoder stores it into. -/
def toInt64 (n : Nat) : Int :=
  if n < 2^63 then (n : Int) else (n : Int) - 2^64

/-! ## The normalized, version-agnostic superblock (global `sBlk`) -/

structure SBlk where
  s_magic : Nat
  inodes : Nat
  mkfs_time : Nat
  block_size : Nat
  fragments : Nat
  block_log : Nat
  flags : Nat
  s_major : Nat
  s_minor : Nat
  root_inode : Int
  bytes_used : Int
  inode_table_start : Int
  directory_table_start : Int
  fragment_table_start : Int
  lookup_table_start : Int
  no_uids : Nat
  no_guids : Nat
  uid_start : Int
  guid_start : Int
  xattr_id_table_start : Int
  deriving Repr, DecidableEq

/-- The field-copy block of `read_super_3` (lines 726-745): populate the
version-agnostic `sBlk` from the (already endian-normalized) raw record,
hard-coding "no xattr table". -/
def mkSBlk (r : RawSuper) : SBlk where
  s_magic := r.s_magic
  inodes := r.inodes
  mkfs_time := r.mkfs_time
  block_size := r.block_size
  fragments := r.fragments
  block_log := r.block_log
  flags := r.flags
  s_major := r.s_major
  s_minor := r.s_minor
  root_inode := toInt64 r.root_inode
  bytes_used := toInt64 r.bytes_used
  inode_table_start := toInt64 r.inode_table_start
  directory_table_start := toInt64 r.directory_table_start
  fragment_table_start := toInt64 r.fragment_table_start
  lookup_table_start := toInt64 r.lookup_table_start
  no_uids := r.no_uids
  no_guids := r.no_guids
  uid_start := toInt64 r.uid_start
  guid_start := toInt64 r.guid_start
  xattr_id_table_start := SQUASHFS_INVALID_BLK

/-- Result of `read_super_3`: the returned int (`TRUE`=1 on success,
`FALSE`=0 on read failure, `-1` for "not this format"), the process-wide
swap flag, the final contents of the caller-supplied record buffer,
whether the foreign-endian warning was printed, the populated `sBlk`
(if accepted) and the selected compressor name (if accepted). -/
structure Super3Result where
  res : Int
  swapFlag : Bool
  record : RawSuper
  warned : Bool
  out : Option SBlk
  compressorName : Option String
  deriving Repr, DecidableEq

/-- `read_super_3` (lines 699-754).  `read_ok` models the outcome of the
initial `read_fs_bytes` of the raw record `r`; `swapIn` is the value of
the global `swap` flag before the call (left untouched when the read
fails, since `swap = 0` executes only after the read succeeds). -/
def read_super_3 (swapIn : Bool) (read_ok : Bool) (r : RawSuper) : Super3Result :=
  if ¬ read_ok then
    ⟨0, swapIn, r, false, none, none⟩
  else
    let swapped := r.s_magic = SQUASHFS_MAGIC_SWAP
    let r1 := if swapped then swapSuper r else r
    if r1.s_magic ≠ SQUASHFS_MAGIC ∨ r1.s_major ≠ 3 ∨ r1.s_minor > 1 then
      ⟨-1, swapped, r1, swapped, none, none⟩
    else
      ⟨1, swapped, r1, swapped, some (mkSBlk r1), some "gzip"⟩

/-! ## Fragment table / export table readers

The size macros come from `squashfs_compat.h` (not under study); their
values are pinned down by the overflow comments inside
`read_fragment_table` ("Max size of bytes is 2^32*16", "Max indexes is
(2^32*16)/8K", "Max length is ((2^32*16)/8K)*8") and
`parse_exports_table` ("Max indexes is (2^32*8)/8K"), and by the spec's
§4.4 (8 KiB metadata blocks, 64-bit index entries): a fragment entry is
16 bytes, an export entry 8 bytes, an index slot 8 bytes. -/

/-- `SQUASHFS_FRAGMENT_INDEX_BYTES_3`: byte length of the fragment index
array — 8 bytes per 8 KiB metadata block of 16-byte fragment entries. -/
def squashfs_fragment_index_bytes (fragments : Nat) : Int :=
  (8 * ((16 * fragments + 8191) / 8192) : Nat)

/-- `SQUASHFS_LOOKUP_BLOCK_BYTES_3`: byte length of the export index
array — 8 bytes per 8 KiB metadata block of 8-byte export entries. -/
def squashfs_lookup_block_bytes (inodes : Nat) : Int :=
  (8 * ((8 * inodes + 8191) / 8192) : Nat)

/-- I/O outcomes consumed by `read_fragment_table`: whether the
`read_fs_bytes` of the index array succeeds, whether every `read_block`
of an indexed metadata block succeeds, and the first index entry
`fragment_table_index[0]` the read would deliver. -/
structure FragEnv where
  index_read_ok : Bool
  blocks_ok : Bool
  index0 : Int
  deriving Repr, DecidableEq

/-- I/O outcomes consumed by `parse_exports_table`: whether the
`read_fs_bytes` of the export index succeeds and the first index entry
`export_index_table[0]` it would deliver. -/
structure ExportEnv where
  read_ok : Bool
  index0 : Int
  deriving Repr, DecidableEq

/-- `read_fragment_table` (lines 79-162).  `table_start` is the in/out
cursor parameter; `none` models returning `FALSE`, `some c` models
returning `TRUE` with `*table_start = c`.  The length of the index
array must equal the gap between `fragment_table_start` and the cursor;
then the index and every indexed block are read (the swap-mode and
native paths fail under exactly the same conditions), and the cursor is
set to `fragment_table_index[0]`. -/
def read_fragment_table (sb : SBlk) (env : FragEnv) (table_start : Int) : Option Int :=
  if squashfs_fragment_index_bytes sb.fragments ≠ table_start - sb.fragment_table_start then
    none
  else if ¬ env.index_read_ok then
    none
  else if ¬ env.blocks_ok then
    none
  else
    some env.index0

/-- `parse_exports_table` (lines 533-587): `none` models `FALSE`; the
index length must equal the gap between `lookup_table_start` and the
cursor, the index array read must succeed, and the cursor is set to
`export_index_table[0]`. -/
def parse_exports_table (sb : SBlk) (env : ExportEnv) (table_start : Int) : Option Int :=
  if squashfs_lookup_block_bytes sb.inodes ≠ table_start - sb.lookup_table_start then
    none
  else if ¬ env.read_ok then
    none
  else
    some env.index0

/-! ## Filesystem table orchestrator (`read_filesystem_tables`) -/

/-- External read outcomes consumed by `read_filesystem_tables`: the two
`read_ids` calls (gid then uid table) plus the environments of the
export and fragment table readers. -/
structure TablesEnv where
  guid_read_ok : Bool
  uid_read_ok : Bool
  exports : ExportEnv
  frag : FragEnv
  deriving Repr, DecidableEq

/-- Final directory/inode table checks of `read_filesystem_tables`
(lines 674-684). -/
def rft_check_dir_tables (sb : SBlk) (ts : Int) : Bool :=
  if sb.directory_table_start > ts then false
  else if sb.inode_table_start ≥ sb.directory_table_start then false
  else true

/-- Fragment-table stage of `read_filesystem_tables` (lines 646-672). -/
def rft_fragments (sb : SBlk) (env : TablesEnv) (ts : Int) : Bool :=
  if sb.fragments ≠ 0 then
    if sb.fragment_table_start ≥ ts then false
    else if sb.fragments > sb.inodes then false
    else
      match read_fragment_table sb env.frag ts with
      | none => false
      | some ts2 => rft_check_dir_tables sb ts2
  else
    if sb.fragment_table_start ≠ ts then false
    else rft_check_dir_tables sb ts

/-- Export-table stage of `read_filesystem_tables` (lines 633-644). -/
def rft_exports (sb : SBlk) (env : TablesEnv) (ts : Int) : Bool :=
  if sb.lookup_table_start ≠ SQUASHFS_INVALID_BLK then
    if sb.lookup_table_start ≥ ts then false
    else
      match parse_exports_table sb env.exports ts with
      | none => false
      | some ts2 => rft_fragments sb env ts2
  else rft_fragments sb env ts

/-- Uid-table stage of `read_filesystem_tables` (lines 617-631). -/
def rft_uid (sb : SBlk) (env : TablesEnv) (ts : Int) : Bool :=
  if sb.uid_start ≥ ts then false
  else if sb.no_uids = 0 then false
  else if ¬ env.uid_read_ok then false
  else rft_exports sb env sb.uid_start

/-- `read_filesystem_tables` (lines 590-696): `true` models `TRUE`,
`false` models the `corrupted` exit. -/
def read_filesystem_tables (sb : SBlk) (env : TablesEnv) : Bool :=
  if sb.no_guids ≠ 0 then
    if sb.guid_start ≥ sb.bytes_used then false
    else if ¬ env.guid_read_ok then false
    else rft_uid sb env sb.guid_start
  else
    if sb.guid_start ≠ 0 then false
    else rft_uid sb env sb.bytes_used

/-! ## The claim's region-ordering checks (C1)

`regionOrderingOK` is written from the claim's own words (the §4.3
inequality list), with the cursor advanced exactly as the claim
describes: `guid_start` (or `bytes_used`) after the gid step,
`uid_start` after the uid step, the export table's first indexed block
offset after the export step, and the fragment table's first indexed
block offset after the fragment step.  It is to be compared with the
translated `read_filesystem_tables`. -/
def regionOrderingOK (sb : SBlk) (env : TablesEnv) : Bool :=
  let c1 : Int := if sb.no_guids ≠ 0 then sb.guid_start else sb.bytes_used
  let c2 : Int := sb.uid_start
  let c3 : Int :=
    if sb.lookup_table_start ≠ SQUASHFS_INVALID_BLK then env.exports.index0 else c2
  let c4 : Int := if sb.fragments ≠ 0 then env.frag.index0 else c3
  (if sb.no_guids ≠ 0 then decide (sb.guid_start < sb.bytes_used)
   else decide (sb.guid_start = 0)) &&
  decide (sb.uid_start < c1) && decide (sb.no_uids ≠ 0) &&
  (if sb.lookup_table_start ≠ SQUASHFS_INVALID_BLK then
     decide (sb.lookup_table_start < c2)
   else true) &&
  (if sb.fragments ≠ 0 then
     decide (sb.fragment_table_start < c3) && decide (sb.fragments ≤ sb.inodes)
   else decide (sb.fragment_table_start = c3)) &&
  decide (sb.directory_table_start ≤ c4) &&
  decide (sb.inode_table_start < sb.directory_table_start)

/-- The cursor in force when the fragment stage runs: `uid_start`, unless
an export table is present, in which case its first indexed block offset. -/
def cursorAfterExports (sb : SBlk) (env : TablesEnv) : Int :=
  if sb.lookup_table_start ≠ SQUASHFS_INVALID_BLK then env.exports.index0
  else sb.uid_start

/-- A benign environment: every external read succeeds and the two
index-length consistency checks inside the sub-readers pass, isolating
the region-ordering checks as the only possible failures. -/
def BenignEnv (sb : SBlk) (env : TablesEnv) : Prop :=
  env.guid_read_ok = true ∧ env.uid_read_ok = true ∧
  env.exports.read_ok = true ∧ env.frag.index_read_ok = true ∧
  env.frag.blocks_ok = true ∧
  (sb.lookup_table_start ≠ SQUASHFS_INVALID_BLK →
    squashfs_lookup_block_bytes sb.inodes = sb.uid_start - sb.lookup_table_start) ∧
  (sb.fragments ≠ 0 →
    squashfs_fragment_index_bytes sb.fragments =
      cursorAfterExports sb env - sb.fragment_table_start)

/-! ## Inode decoder (`read_inode`)

The base header and the seven secondary header shapes live in
`squashfs_compat.h`; only the fields `read_inode` consumes are
modelled.  The bytes each `read_inode_data` call would deliver are
supplied through `InodeEnv` (`none` models a failed read, which
`read_inode` treats as fatal). -/

structure BaseInodeHeader3 where
  inode_type : Nat
  mode : Nat
  uid : Nat
  guid : Nat
  mtime : Nat
  inode_number : Nat
  deriving Repr, DecidableEq

/-- Secondary header for `SQUASHFS_DIR_TYPE` / `SQUASHFS_LDIR_TYPE`. -/
structure DirInodeHeader3 where
  file_size : Nat
  offset : Nat
  start_block : Nat
  deriving Repr, DecidableEq

/-- Secondary header for `SQUASHFS_FILE_TYPE` / `SQUASHFS_LREG_TYPE`. -/
structure RegInodeHeader3 where
  fragment : Nat
  offset : Nat
  start_block : Nat
  file_size : Nat
  deriving Repr, DecidableEq

structure SymlinkInodeHeader3 where
  symlink_size : Nat
  deriving Repr, DecidableEq

structure DevInodeHeader3 where
  rdev : Nat
  deriving Repr, DecidableEq

/-- Environment of `read_inode`: the loaded uid/gid tables and, per inode
type, the secondary header bytes the metadata stream would deliver
(`none` = that `read_inode_data` call fails). -/
structure InodeEnv where
  uid_table : List Nat
  guid_table : List Nat
  dirHdr : Option DirInodeHeader3
  ldirHdr : Option DirInodeHeader3
  regHdr : Option RegInodeHeader3
  lregHdr : Option RegInodeHeader3
  symHdr : Option SymlinkInodeHeader3
  symTarget : Option (List Char)
  devHdr : Option DevInodeHeader3
  deriving Repr, DecidableEq

/-- The decoded `struct inode` populated by `read_inode`. -/
structure Inode where
  uid : Nat
  gid : Nat
  mode : Nat
  type : Nat
  time : Nat
  inode_number : Nat
  xattr : Int
  data : Nat
  frag_bytes : Nat
  fragment : Nat
  offset : Nat
  blocks : Nat
  start : Nat
  sparse : Nat
  symlink : Option (List Char)
  deriving Repr, DecidableEq

/-- Diagnostics of the fatal `EXIT_UNSQUASH` calls in `read_inode`. -/
def uidRangeMsg : String :=
  "File system corrupted - uid index in inode too large"

def gidRangeMsg : String :=
  "File system corrupted - gid index in inode too large"

def typeRangeMsg : String :=
  "File system corrupted - invalid type in inode"

def inodeNumberLargeMsg : String :=
  "File system corrupted - inode number in inode too large"

def inodeNumberZeroMsg : String :=
  "File system corrupted - inode number zero is invalid"

def inodeReadFailMsg : String :=
  "read_inode: failed to read inode"

/-- `read_inode` (lines 175-390), after the base header bytes `hdr` have
been obtained.  `lt` models the external `lookup_type` mode table.  A
fatal `EXIT_UNSQUASH` is modelled as `.error` carrying the diagnostic;
the checks run in source order: uid bound, gid resolution, type range,
inode-number bounds, and only then the type-specific decode. -/
def read_inode (sb : SBlk) (lt : Nat → Nat) (env : InodeEnv)
    (hdr : BaseInodeHeader3) : Except String Inode :=
  if hdr.uid ≥ sb.no_uids then .error uidRangeMsg
  else
    let uid := env.uid_table.getD hdr.uid 0
    let gidRes : Except String Nat :=
      if hdr.guid = SQUASHFS_GUIDS then .ok uid
      else if hdr.guid ≥ sb.no_guids then .error gidRangeMsg
      else .ok (env.guid_table.getD hdr.guid 0)
    match gidRes with
    | .error e => .error e
    | .ok gid =>
      if hdr.inode_type < 1 ∨ hdr.inode_type > 9 then .error typeRangeMsg
      else if hdr.inode_number > sb.inodes then .error inodeNumberLargeMsg
      else if hdr.inode_number = 0 then .error inodeNumberZeroMsg
      else
        let base : Inode :=
          { uid := uid, gid := gid,
            mode := Nat.lor (lt hdr.inode_type) hdr.mode,
            type := hdr.inode_type, time := hdr.mtime,
            inode_number := hdr.inode_number,
            xattr := SQUASHFS_INVALID_XATTR,
            data := 0, frag_bytes := 0, fragment := 0, offset := 0,
            blocks := 0, start := 0, sparse := 0, symlink := none }
        match hdr.inode_type with
        | 1 =>
          match env.dirHdr with
          | none => .error inodeReadFailMsg
          | some d => .ok { base with
              data := d.file_size, offset := d.offset, start := d.start_block }
        | 8 =>
          match env.ldirHdr with
          | none => .error inodeReadFailMsg
          | some d => .ok { base with
              data := d.file_size, offset := d.offset, start := d.start_block }
        | 2 =>
          match env.regHdr with
          | none => .error inodeReadFailMsg
          | some r => .ok { base with
              data := r.file_size,
              frag_bytes := if r.fragment = SQUASHFS_INVALID_FRAG then 0
                else r.file_size % sb.block_size,
              fragment := r.fragment,
              offset := r.offset,
              blocks := if r.fragment = SQUASHFS_INVALID_FRAG then
                  (r.file_size + sb.block_size - 1) >>> sb.block_log
                else r.file_size >>> sb.block_log,
              start := r.start_block, sparse := 1 }
        | 9 =>
          match env.lregHdr with
          | none => .error inodeReadFailMsg
          | some r => .ok { base with
              data := r.file_size,
              frag_bytes := if r.fragment = SQUASHFS_INVALID_FRAG then 0
                else r.file_size % sb.block_size,
              fragment := r.fragment,
              offset := r.offset,
              blocks := if r.fragment = SQUASHFS_INVALID_FRAG then
                  (r.file_size + sb.block_size - 1) >>> sb.block_log
                else r.file_size >>> sb.block_log,
              start := r.start_block, sparse := 1 }
        | 3 =>
          match env.symHdr with
          | none => .error inodeReadFailMsg
          | some s =>
            match env.symTarget with
            | none => .error inodeReadFailMsg
            | some tgt => .ok { base with
                data := s.symlink_size, symlink := some tgt }
        | 4 =>
          match env.devHdr with
          | none => .error inodeReadFailMsg
          | some d => .ok { base with data := d.rdev }
        | 5 =>
          match env.devHdr with
          | none => .error inodeReadFailMsg
          | some d => .ok { base with data := d.rdev }
        | 6 => .ok base
        | 7 => .ok base
        | _ => .error "Unknown inode type in read_inode"

/-! ## Directory stream decoder (`squashfs_opendir`)

The directory-table byte stream is modelled as a list of tokens, one
per `read_directory_data` call the decoder makes: a chunk header
(`squashfs_dir_header_3`), or a directory entry
(`squashfs_dir_entry_3`) carrying the trailing name bytes its follow-up
name read would deliver (`name = none` models a failed name read).  A
read that finds no matching token models a failed/short read, which the
source treats as corruption (`goto corrupted`).  The record byte sizes
(`sizeof(dirh)`, `sizeof(*dire)`) live in `squashfs_compat.h`; they are
carried as parameters `shdr`/`sent` since no claim depends on their
values. -/

structure DirHeader3 where
  count : Nat
  start_block : Nat
  inode_number : Nat
  deriving Repr, DecidableEq

structure RawDirEntry where
  offset : Nat
  type : Nat
  size : Nat
  name : Option String
  deriving Repr, DecidableEq

inductive DirToken where
  | hdr (h : DirHeader3)
  | ent (e : RawDirEntry)
  deriving Repr, DecidableEq

/-- One materialized `struct dir_ent`. -/
structure DirEnt where
  name : String
  start_block : Nat
  offset : Nat
  type : Nat
  deriving Repr, DecidableEq

/-- The `struct dir` returned by `squashfs_opendir`. -/
structure Dir3 where
  mode : Nat
  uid : Nat
  guid : Nat
  mtime : Nat
  xattr : Int
  entries : List DirEnt
  deriving Repr, DecidableEq

/-- Modelled from the spec: `check_name` lives in the surrounding tool
(`unsquashfs.c`), not in the source under study.  Per the spec's §3 and
§4.6, a valid entry name is non-empty, not `"."`, not `".."`, and
contains no path separator `/`. -/
def check_name (s : String) : Bool :=
  decide (s ≠ "") && decide (s ≠ ".") && decide (s ≠ "..") && ! s.data.contains '/'

/-- Modelled from the spec: `check_directory` lives in the surrounding
tool (`unsquashfs.c`).  Per the spec's §4.6 the entry collection must be
duplicate-free and strictly sorted by name, i.e. strictly increasing in
lexicographic order. -/
def nameLt : List Char → List Char → Bool
  | [], [] => false
  | [], _ :: _ => true
  | _ :: _, [] => false
  | a :: as, b :: bs =>
    if a.toNat < b.toNat then true
    else if b.toNat < a.toNat then false
    else nameLt as bs

def check_directory : List DirEnt → Bool
  | [] => true
  | [_] => true
  | a :: b :: rest => nameLt a.name.data b.name.data && check_directory (b :: rest)

/-- Inner entry loop of `squashfs_opendir` (lines 460-516): consume
`n` entries from the token stream, performing the per-entry size check,
name read and `check_name` validation, appending materialized entries.
Returns the remaining stream, updated byte counter and entry list, or
`none` for `goto corrupted`. -/
def parseEnts (sent : Nat) (hsb : Nat) :
    Nat → List DirToken → Int → List DirEnt →
    Option (List DirToken × Int × List DirEnt)
  | 0, stream, bytes, acc => some (stream, bytes, acc)
  | n + 1, DirToken.ent e :: rest, bytes, acc =>
    let bytes1 := bytes + sent
    if e.size ≥ SQUASHFS_NAME_LEN then none
    else
      match e.name with
      | none => none
      | some nm =>
        if check_name nm = false then none
        else
          parseEnts sent hsb n rest (bytes1 + (e.size + 1 : Nat))
            (acc ++ [⟨nm, hsb, e.offset, e.type⟩])
  | _ + 1, _, _, _ => none

/-- Outer `while (bytes < size)` loop of `squashfs_opendir` (lines
437-517): read a chunk header, check its entry count, then consume its
entries.  `fuel` bounds the iteration count (each iteration consumes at
least one header token; `squashfs_opendir` passes enough fuel for any
terminating run). -/
def parseDir (shdr sent : Nat) :
    Nat → List DirToken → Int → Int → List DirEnt → Option (List DirEnt)
  | 0, _, _, _, _ => none
  | fuel + 1, stream, bytes, size, acc =>
    if bytes < size then
      match stream with
      | DirToken.hdr h :: rest =>
        let dir_count := h.count + 1
        let bytes1 := bytes + shdr
        if dir_count > SQUASHFS_DIR_COUNT then none
        else
          match parseEnts sent h.start_block dir_count rest bytes1 acc with
          | none => none
          | some (rest2, bytes2, acc2) => parseDir shdr sent fuel rest2 bytes2 size acc2
      | _ => none
    else some acc

/-- `squashfs_opendir` (lines 393-530), taking the directory's owning
inode as decoded by `read_inode` and the directory-table token stream.
`none` models the `corrupted` exit (all built entries released, `NULL`
returned).  With `(*i)->data == 3` the entry-free directory is returned
before any stream read; otherwise the byte budget is
`size = data - 3` and the stream is parsed, after which the entry
collection is checked once by `check_directory`. -/
def squashfs_opendir (shdr sent : Nat) (i : Inode) (stream : List DirToken) :
    Option Dir3 :=
  let dir0 : Dir3 := ⟨i.mode, i.uid, i.gid, i.time, i.xattr, []⟩
  if i.data = 3 then some dir0
  else
    let size : Int := (i.data : Int) - 3
    match parseDir shdr sent (size.toNat + 1) stream 0 size [] with
    | none => none
    | some ents =>
      if check_directory ents = false then none
      else some { dir0 with entries := ents }

/-- Concrete well-formed native-endian record used to witness C4:
magic, version 3.1, 128 KiB blocks, one inode, one uid. -/
def c4r : RawSuper :=
  ⟨SQUASHFS_MAGIC, 1, 0, 131072, 0, 17, 0, 3, 1, 0, 200, 10, 50, 90, 0, 1, 0, 90, 0⟩

/-- All-zero record bearing the swapped magic, witnessing C10. -/
def c10r : RawSuper :=
  ⟨SQUASHFS_MAGIC_SWAP, 0, 0, 0, 0, 0, 0, 0, 0, 0, 0, 0, 0, 0, 0, 0, 0, 0, 0⟩

/-- Directory inode with declared size 3, witnessing C5. -/
def c5i : Inode :=
  ⟨0, 0, 0, 1, 0, 1, SQUASHFS_INVALID_XATTR, 3, 0, 0, 0, 0, 0, 0, none⟩

/-- Directory inode with declared size 0, witnessing C9. -/
def c9i : Inode :=
  ⟨0, 0, 0, 1, 0, 1, SQUASHFS_INVALID_XATTR, 0, 0, 0, 0, 0, 0, 0, none⟩

/-- Superblock with 128-byte blocks (`block_log = 7`), witnessing C2. -/
def c2sb : SBlk :=
  ⟨SQUASHFS_MAGIC, 5, 0, 128, 1, 7, 0, 3, 1, 0, 1000, 10, 50, 90, -1, 1, 1, 95, 98, -1⟩

/-- Regular-file base header (type 2, gid sentinel), witnessing C2. -/
def c2hdr : BaseInodeHeader3 := ⟨2, 420, 0, SQUASHFS_GUIDS, 99, 1⟩

/-- Inode environment delivering a regular-file secondary header with a
tail fragment (fragment 5, offset 7, start 100, size 300), witnessing C2. -/
def c2env : InodeEnv :=
  ⟨[1000], [2000], none, none, some ⟨5, 7, 100, 300⟩, none, none, none, none⟩

/-- The inode C2's witness decode produces: 300 bytes at block size 128
with a fragment gives 2 full blocks and 44 tail bytes. -/
def c2inode : Inode :=
  ⟨1000, 1000, 420, 2, 99, 1, SQUASHFS_INVALID_XATTR, 300, 44, 5, 7, 2, 100, 1, none⟩

/-- Concrete superblock witnessing C1: gid table at 100, uid table at
90, no export table, no fragments (fragment start equals the cursor),
directory table at 50, inode table at 10, 200 bytes used. -/
def c1sb : SBlk :=
  ⟨SQUASHFS_MAGIC, 1, 0, 131072, 0, 17, 0, 3, 1, 0, 200, 10, 50, 90, -1, 1, 1, 90, 100, -1⟩

/-- Benign environment witnessing C1: every external read succeeds. -/
def c1env : TablesEnv := ⟨true, true, ⟨true, 0⟩, ⟨true, true, 0⟩⟩

/-- Directory inode with declared size 8 (byte budget 5), witnessing C6. -/
def c6i : Inode :=
  ⟨0, 0, 0, 1, 0, 1, SQUASHFS_INVALID_XATTR, 8, 0, 0, 0, 0, 0, 0, none⟩

/-- Token stream holding one chunk of two entries named out of order
("b" before "a"), witnessing C6. -/
def c6stream : List DirToken :=
  [DirToken.hdr ⟨1, 5, 1⟩, DirToken.ent ⟨0, 1, 0, some "b"⟩,
   DirToken.ent ⟨0, 1, 0, some "a"⟩]

/-- The fully materialized (unsorted) entry list of `c6stream`. -/
def c6ents : List DirEnt := [⟨"b", 5, 0, 1⟩, ⟨"a", 5, 0, 1⟩]

/-- Directory inode with declared size 4 (byte budget 1), witnessing C7. -/
def c7i : Inode :=
  ⟨0, 0, 0, 1, 0, 1, SQUASHFS_INVALID_XATTR, 4, 0, 0, 0, 0, 0, 0, none⟩

/-! ## Byte-swap and involution lemmas -/

theorem bytesLE_length (k n : Nat) : (bytesLE k n).length = k := by
  induction k generalizing n with
  | zero => rfl
  | succ k ih => simp [bytesLE, ih]

theorem bytesLE_lt (k n : Nat) : ∀ b ∈ bytesLE k n, b < 256 := by
  induction k generalizing n with
  | zero => intro b hb; simp [bytesLE] at hb
  | succ k ih =>
      intro b hb
      simp only [bytesLE, List.mem_cons] at hb
      rcases hb with h | h
      · omega
      · exact ih _ b h

theorem fromBytesLE_bytesLE (k n : Nat) (h : n < 256 ^ k) :
    fromBytesLE (bytesLE k n) = n := by
  induction k generalizing n with
  | zero => simp [bytesLE, fromBytesLE]; omega
  | succ k ih =>
      have hdiv : n / 256 < 256 ^ k := by
        rw [Nat.div_lt_iff_lt_mul (by norm_num)]
        calc n < 256 ^ (k + 1) := h
          _ = 256 ^ k * 256 := by ring
      simp only [bytesLE, fromBytesLE, ih (n / 256) hdiv]
      omega

theorem bytesLE_fromBytesLE (L : List Nat) (hL : ∀ b ∈ L, b < 256) :
    bytesLE L.length (fromBytesLE L) = L := by
  induction L with
  | nil => rfl
  | cons b bs ih =>
      have hb : b < 256 := hL b (List.mem_cons_self b bs)
      have hmod : (b + 256 * fromBytesLE bs) % 256 = b := by omega
      have hdiv : (b + 256 * fromBytesLE bs) / 256 = fromBytesLE bs := by omega
      simp only [List.length_cons, fromBytesLE, bytesLE, hmod, hdiv]
      rw [ih (fun c hc => hL c (List.mem_cons_of_mem b hc))]

theorem bswapBytes_involutive (k n : Nat) (h : n < 256 ^ k) :
    bswapBytes k (bswapBytes k n) = n := by
  have hlen : (List.reverse (bytesLE k n)).length = k := by
    rw [List.length_reverse, bytesLE_length]
  have hlt : ∀ b ∈ List.reverse (bytesLE k n), b < 256 := by
    intro b hb
    exact bytesLE_lt k n b (List.mem_reverse.mp hb)
  have key : bytesLE k (fromBytesLE (List.reverse (bytesLE k n))) =
      List.reverse (bytesLE k n) := by
    have h2 := bytesLE_fromBytesLE (List.reverse (bytesLE k n)) hlt
    rwa [hlen] at h2
  unfold bswapBytes
  rw [key, List.reverse_reverse, fromBytesLE_bytesLE k n h]

theorem bswap16_involutive (n : Nat) (h : n < 2^16) : bswap16 (bswap16 n) = n :=
  bswapBytes_involutive 2 n (by norm_num at h ⊢; omega)

theorem bswap32_involutive (n : Nat) (h : n < 2^32) : bswap32 (bswap32 n) = n :=
  bswapBytes_involutive 4 n (by norm_num at h ⊢; omega)

theorem bswap64_involutive (n : Nat) (h : n < 2^64) : bswap64 (bswap64 n) = n :=
  bswapBytes_involutive 8 n (by norm_num at h ⊢; omega)

theorem swapSuper_involutive (r : RawSuper) (h : r.Wf) : swapSuper (swapSuper r) = r := by
  obtain ⟨h1, h2, h3, h4, h5, h6, h7, h8, h9, h10, h11, h12, h13, h14, h15, h16, h17, h18, h19⟩ := h
  cases r
  simp only [swapSuper, RawSuper.mk.injEq]
  exact ⟨bswap32_involutive _ h1, bswap32_involutive _ h2, bswap32_involutive _ h3,
    bswap32_involutive _ h4, bswap32_involutive _ h5, bswap16_involutive _ h6,
    trivial, bswap16_involutive _ h8, bswap16_involutive _ h9,
    bswap64_involutive _ h10, bswap64_involutive _ h11, bswap64_involutive _ h12,
    bswap64_involutive _ h13, bswap64_involutive _ h14, bswap64_involutive _ h15,
    trivial, trivial, bswap64_involutive _ h18, bswap64_involutive _ h19⟩

/-! ## Claim theorems -/

/-- Claim C4: `read_super_3` returns the distinguishable "not this
format" outcome `-1` (distinct from the read-failure outcome `0`)
whenever the magic matches neither the native nor the byte-swapped
constant, or the (endian-normalized) record's major version is not 3,
or its minor version exceeds 1; when the magic matches the swapped
constant the whole record is byte-swapped, swap mode is set, a
foreign-endian warning is emitted, and the accepted field values equal
those of the equivalent native-endian image. -/
theorem read_super_3_format_detection (swapIn : Bool) (r : RawSuper) (hwf : r.Wf) :
    ((read_super_3 swapIn false r).res = 0 ∧ (0 : Int) ≠ -1) ∧
    (r.s_magic ≠ SQUASHFS_MAGIC → r.s_magic ≠ SQUASHFS_MAGIC_SWAP →
      (read_super_3 swapIn true r).res = -1) ∧
    (∀ r1, r1 = (if r.s_magic = SQUASHFS_MAGIC_SWAP then swapSuper r else r) →
      r1.s_major ≠ 3 ∨ 1 < r1.s_minor →
      (read_super_3 swapIn true r).res = -1) ∧
    (r.s_magic = SQUASHFS_MAGIC →
      (read_super_3 swapIn true (swapSuper r)).swapFlag = true ∧
      (read_super_3 swapIn true (swapSuper r)).warned = true ∧
      (read_super_3 swapIn true (swapSuper r)).out = (read_super_3 swapIn true r).out) := by
  refine ⟨⟨by simp [read_super_3], by decide⟩, ?_, ?_, ?_⟩
  · intro h1 h2
    simp [read_super_3, h1, h2]
  · intro r1 hr1 hver
    subst hr1
    by_cases hsw : r.s_magic = SQUASHFS_MAGIC_SWAP
    · rw [if_pos hsw] at hver
      simp only [read_super_3, Bool.not_true, Bool.false_eq_true, not_false_eq_true,
        if_neg, hsw, if_pos]
      rw [if_pos (Or.inr hver)]
      simp
    · rw [if_neg hsw] at hver
      simp only [read_super_3, Bool.not_true, Bool.false_eq_true, not_false_eq_true,
        if_neg, hsw, if_neg]
      rw [if_pos (Or.inr hver)]
      simp
  · intro hm
    have hswm : (swapSuper r).s_magic = SQUASHFS_MAGIC_SWAP := by
      show bswap32 r.s_magic = SQUASHFS_MAGIC_SWAP
      rw [hm]; decide
    have hmm : r.s_magic ≠ SQUASHFS_MAGIC_SWAP := by
      rw [hm]; decide
    have hinv : swapSuper (swapSuper r) = r := swapSuper_involutive r hwf
    simp only [read_super_3, Bool.not_true, Bool.false_eq_true, not_false_eq_true,
      if_neg, hswm, if_pos, hmm, hinv]
    by_cases hv : r.s_magic ≠ SQUASHFS_MAGIC ∨ r.s_major ≠ 3 ∨ 1 < r.s_minor
    · rw [if_pos hv, if_pos hv]
      exact ⟨rfl, rfl, rfl⟩
    · rw [if_neg hv, if_neg hv]
      exact ⟨rfl, rfl, rfl⟩

/-- Witness for C4 at a concrete well-formed native-endian record. -/
theorem read_super_3_format_detection_witness :
    ((read_super_3 false false c4r).res = 0 ∧ (0 : Int) ≠ -1) ∧
    (read_super_3 false true (swapSuper c4r)).out = (read_super_3 false true c4r).out := by
  have h := read_super_3_format_detection false c4r (by decide)
  exact ⟨h.1, (h.2.2.2 rfl).2.2⟩

/-- Claim C10: `read_super_3` byte-swaps the record and sets swap mode
before the version check, so a record with the swapped magic that fails
the version check yields the "not this format" outcome `-1` with swap
mode left enabled and the caller's record left byte-swapped: the
rejection is not state-preserving. -/
theorem read_super_3_swap_rejection_state (swapIn : Bool) (r : RawSuper)
    (hsw : r.s_magic = SQUASHFS_MAGIC_SWAP)
    (hver : (swapSuper r).s_major ≠ 3 ∨ 1 < (swapSuper r).s_minor) :
    read_super_3 swapIn true r =
      ⟨-1, true, swapSuper r, true, none, none⟩ := by
  simp only [read_super_3, Bool.not_true, Bool.false_eq_true, not_false_eq_true,
    if_neg, hsw, if_pos]
  rw [if_pos (Or.inr hver)]
  simp

/-- Witness for C10: an all-zero record bearing the swapped magic is
rejected with swap mode on and the record swapped in place (which
differs from the original record). -/
theorem read_super_3_swap_rejection_state_witness :
    read_super_3 false true c10r = ⟨-1, true, swapSuper c10r, true, none, none⟩ ∧
    swapSuper c10r ≠ c10r := by
  refine ⟨read_super_3_swap_rejection_state false c10r (by decide) ?_, by decide⟩
  left
  decide

/-- Claim C5: for every inode whose `data` field is exactly 3,
`squashfs_opendir` immediately returns the entry-free directory built
from the inode's own attributes, for every possible directory stream —
in particular without consuming any directory-stream data — and this is
a success, not a failure. -/
theorem squashfs_opendir_size3_empty (shdr sent : Nat) (i : Inode)
    (stream : List DirToken) (h : i.data = 3) :
    squashfs_opendir shdr sent i stream =
      some ⟨i.mode, i.uid, i.gid, i.time, i.xattr, []⟩ ∧
    squashfs_opendir shdr sent i stream = squashfs_opendir shdr sent i [] := by
  constructor
  · simp [squashfs_opendir, h]
  · simp [squashfs_opendir, h]

/-- Witness for C5 at a concrete inode of declared size 3 and a
non-empty stream. -/
theorem squashfs_opendir_size3_empty_witness :
    squashfs_opendir 12 11 c5i [DirToken.hdr ⟨0, 0, 1⟩] =
      some ⟨c5i.mode, c5i.uid, c5i.gid, c5i.time, c5i.xattr, []⟩ :=
  (squashfs_opendir_size3_empty 12 11 c5i [DirToken.hdr ⟨0, 0, 1⟩] rfl).1

/-- Claim C9 (implicit): for every inode whose `data` field is strictly
less than 3 the byte budget `data - 3` is non-positive, so the entry
loop never runs, the empty entry list passes the structural check, and
`squashfs_opendir` succeeds with an entry-free directory instead of
reporting corruption. -/
theorem squashfs_opendir_size_lt3_empty (shdr sent : Nat) (i : Inode)
    (stream : List DirToken) (h : i.data < 3) :
    squashfs_opendir shdr sent i stream =
      some ⟨i.mode, i.uid, i.gid, i.time, i.xattr, []⟩ := by
  have hne : i.data ≠ 3 := by omega
  have hsz : (i.data : Int) - 3 < 0 := by omega
  have htn : ((i.data : Int) - 3).toNat = 0 := by omega
  simp only [squashfs_opendir, if_neg hne, htn, parseDir, if_neg (by omega : ¬ ((0:Int) < (i.data : Int) - 3))]
  simp [check_directory]

/-- Witness for C9 at a concrete inode of declared size 0. -/
theorem squashfs_opendir_size_lt3_empty_witness :
    squashfs_opendir 12 11 c9i [DirToken.hdr ⟨0, 0, 1⟩] =
      some ⟨c9i.mode, c9i.uid, c9i.gid, c9i.time, c9i.xattr, []⟩ :=
  squashfs_opendir_size_lt3_empty 12 11 c9i [DirToken.hdr ⟨0, 0, 1⟩] (by decide)

/-- Claim C2: for every regular-file (type 2) or extended regular-file
(type 9) inode decoded by `read_inode`, if the fragment index is the
"invalid" sentinel then the tail-byte count is 0 and the block count is
the ceiling of `file_size / block_size` (computed as
`(file_size + block_size - 1) / block_size`); otherwise the block count
is the floor `file_size / block_size` and the tail-byte count is
`file_size % block_size`.  The source computes the divisions as shifts
by `block_log`, so the superblock invariant
`block_size = 2 ^ block_log` is assumed. -/
theorem read_inode_regular_block_counts (sb : SBlk) (lt : Nat → Nat)
    (env : InodeEnv) (hdr : BaseInodeHeader3) (r : RegInodeHeader3) (i : Inode)
    (hbs : sb.block_size = 2 ^ sb.block_log)
    (hcase : (hdr.inode_type = 2 ∧ env.regHdr = some r) ∨
             (hdr.inode_type = 9 ∧ env.lregHdr = some r))
    (hok : read_inode sb lt env hdr = .ok i) :
    (r.fragment = SQUASHFS_INVALID_FRAG →
      i.frag_bytes = 0 ∧
      i.blocks = (r.file_size + sb.block_size - 1) / sb.block_size) ∧
    (r.fragment ≠ SQUASHFS_INVALID_FRAG →
      i.blocks = r.file_size / sb.block_size ∧
      i.frag_bytes = r.file_size % sb.block_size) := by
  have hshift : ∀ m : Nat, m >>> sb.block_log = m / sb.block_size := by
    intro m
    rw [Nat.shiftRight_eq_div_pow, hbs]
  rcases hcase with ⟨htype, hr⟩ | ⟨htype, hr⟩ <;>
  · simp only [read_inode, htype, hr] at hok
    split at hok
    · exact absurd hok (by simp)
    split at hok
    · exact absurd hok (by simp)
    · split at hok
      · exact absurd hok (by simp)
      split at hok
      · exact absurd hok (by simp)
      split at hok
      · exact absurd hok (by simp)
      rw [Except.ok.injEq] at hok
      subst hok
      constructor
      · intro hfrag
        simp only [if_pos hfrag, hshift]
        exact ⟨by trivial, by trivial⟩
      · intro hfrag
        simp only [if_neg hfrag, hshift]
        exact ⟨by trivial, by trivial⟩

/-- Witness for C2: a regular-file inode with a 3-block-plus-tail file
and a fragment present. -/
theorem read_inode_regular_block_counts_witness :
    read_inode c2sb (fun _ => 0) c2env c2hdr = .ok c2inode ∧
    c2inode.blocks = 300 / 128 ∧ c2inode.frag_bytes = 300 % 128 := by
  have h := read_inode_regular_block_counts c2sb (fun _ => 0) c2env c2hdr
    ⟨5, 7, 100, 300⟩ c2inode (by norm_num [c2sb]) (Or.inl ⟨rfl, rfl⟩) (by rfl)
  exact ⟨by rfl, (h.2 (by decide)).1, (h.2 (by decide)).2⟩

/-- Claim C3: in `read_inode`, an inode whose uid index reaches the
loaded uid-table length (equal to the superblock's uid count) fails
with the out-of-range diagnostic before any type-specific decode — for
every environment, hence regardless of any type-specific header bytes;
an inode whose gid field is the "same as owner" sentinel yields
`gid = uid` without reading the gid table (the result is identical for
any two gid tables); any other gid index at or beyond the gid-table
length fails with the out-of-range diagnostic. -/
theorem read_inode_id_bounds (sb : SBlk) (lt : Nat → Nat) (env : InodeEnv)
    (hdr : BaseInodeHeader3) (hlen : env.uid_table.length = sb.no_uids) :
    (env.uid_table.length ≤ hdr.uid →
      read_inode sb lt env hdr = .error uidRangeMsg) ∧
    (hdr.guid = SQUASHFS_GUIDS →
      (∀ i, read_inode sb lt env hdr = .ok i → i.gid = i.uid) ∧
      (∀ g1 g2, read_inode sb lt { env with guid_table := g1 } hdr =
        read_inode sb lt { env with guid_table := g2 } hdr)) ∧
    (hdr.uid < sb.no_uids → hdr.guid ≠ SQUASHFS_GUIDS → sb.no_guids ≤ hdr.guid →
      read_inode sb lt env hdr = .error gidRangeMsg) := by
  refine ⟨?_, ?_, ?_⟩
  · intro h
    rw [hlen] at h
    simp [read_inode, h]
  · intro hguid
    constructor
    · intro i hok
      simp only [read_inode, if_pos hguid] at hok
      split at hok
      · exact Except.noConfusion hok
      split at hok
      · exact Except.noConfusion hok
      split at hok
      · exact Except.noConfusion hok
      split at hok
      · exact Except.noConfusion hok
      · split at hok <;> (try split at hok) <;> (try split at hok) <;>
          first
            | exact Except.noConfusion hok
            | (rw [Except.ok.injEq] at hok; subst hok; rfl)
    · intro g1 g2
      simp [read_inode, hguid]
  · intro hu hguid hge
    have h1 : ¬ hdr.uid ≥ sb.no_uids := by omega
    simp [read_inode, h1, hguid, hge]

/-- Witness for C3: with one loaded uid and one loaded gid, a uid index
of 1 (exactly one past the end) fails with the uid diagnostic, and a
non-sentinel gid index of 1 fails with the gid diagnostic. -/
theorem read_inode_id_bounds_witness :
    read_inode c2sb (fun _ => 0) c2env ⟨2, 420, 1, 0, 99, 1⟩ = .error uidRangeMsg ∧
    read_inode c2sb (fun _ => 0) c2env ⟨2, 420, 0, 1, 99, 1⟩ = .error gidRangeMsg := by
  refine ⟨(read_inode_id_bounds c2sb (fun _ => 0) c2env ⟨2, 420, 1, 0, 99, 1⟩
      (by decide)).1 (by decide),
    (read_inode_id_bounds c2sb (fun _ => 0) c2env ⟨2, 420, 0, 1, 99, 1⟩
      (by decide)).2.2 (by decide) (by decide) (by decide)⟩

/-- Claim C8: both the fragment-table reader and the export-table reader
fail when the computed byte length of their index array differs from
the gap between the table's recorded start and the current upper-bound
cursor, and on success each returns, through the cursor out-parameter,
the table's own first indexed block offset. -/
theorem index_table_length_checks (sb : SBlk) :
    (∀ (env : FragEnv) (ts : Int),
      squashfs_fragment_index_bytes sb.fragments ≠ ts - sb.fragment_table_start →
      read_fragment_table sb env ts = none) ∧
    (∀ (env : FragEnv) (ts c : Int),
      read_fragment_table sb env ts = some c → c = env.index0) ∧
    (∀ (env : ExportEnv) (ts : Int),
      squashfs_lookup_block_bytes sb.inodes ≠ ts - sb.lookup_table_start →
      parse_exports_table sb env ts = none) ∧
    (∀ (env : ExportEnv) (ts c : Int),
      parse_exports_table sb env ts = some c → c = env.index0) := by
  refine ⟨?_, ?_, ?_, ?_⟩
  · intro env ts h
    simp [read_fragment_table, h]
  · intro env ts c h
    simp only [read_fragment_table] at h
    split at h
    · exact Option.noConfusion h
    split at h
    · exact Option.noConfusion h
    split at h
    · exact Option.noConfusion h
    · rw [Option.some.injEq] at h
      exact h.symm
  · intro env ts h
    simp [parse_exports_table, h]
  · intro env ts c h
    simp only [parse_exports_table] at h
    split at h
    · exact Option.noConfusion h
    split at h
    · exact Option.noConfusion h
    · rw [Option.some.injEq] at h
      exact h.symm

/-- Witness for C8: with one fragment the index is 8 bytes; a gap of 4
is rejected, a gap of 8 succeeds and returns the first index entry. -/
theorem index_table_length_checks_witness :
    read_fragment_table c2sb ⟨true, true, 77⟩ (c2sb.fragment_table_start + 4) = none ∧
    read_fragment_table c2sb ⟨true, true, 77⟩ (c2sb.fragment_table_start + 8) = some 77 ∧
    parse_exports_table c2sb ⟨true, 66⟩ (c2sb.lookup_table_start + 4) = none ∧
    parse_exports_table c2sb ⟨true, 66⟩ (c2sb.lookup_table_start + 8) = some 66 := by
  have h := index_table_length_checks c2sb
  refine ⟨h.1 ⟨true, true, 77⟩ _ (by decide), ?_, h.2.2.1 ⟨true, 66⟩ _ (by decide), ?_⟩
  · have : read_fragment_table c2sb ⟨true, true, 77⟩ (c2sb.fragment_table_start + 8) =
        some 77 := by decide
    exact this
  · have : parse_exports_table c2sb ⟨true, 66⟩ (c2sb.lookup_table_start + 8) =
        some 66 := by decide
    exact this

/-! ### Stage characterizations for `read_filesystem_tables` -/

theorem read_fragment_table_eq_ite (sb : SBlk) (env : FragEnv) (ts : Int) :
    read_fragment_table sb env ts =
      (if squashfs_fragment_index_bytes sb.fragments = ts - sb.fragment_table_start ∧
          env.index_read_ok = true ∧ env.blocks_ok = true
       then some env.index0 else none) := by
  unfold read_fragment_table
  split_ifs <;> simp_all

theorem parse_exports_table_eq_ite (sb : SBlk) (env : ExportEnv) (ts : Int) :
    parse_exports_table sb env ts =
      (if squashfs_lookup_block_bytes sb.inodes = ts - sb.lookup_table_start ∧
          env.read_ok = true
       then some env.index0 else none) := by
  unfold parse_exports_table
  split_ifs <;> simp_all

theorem rft_check_dir_tables_true_iff (sb : SBlk) (ts : Int) :
    rft_check_dir_tables sb ts = true ↔
      sb.directory_table_start ≤ ts ∧
      sb.inode_table_start < sb.directory_table_start := by
  unfold rft_check_dir_tables
  split_ifs <;> simp_all

theorem rft_fragments_true_iff (sb : SBlk) (env : TablesEnv) (ts : Int) :
    rft_fragments sb env ts = true ↔
      (if sb.fragments ≠ 0 then
        sb.fragment_table_start < ts ∧ sb.fragments ≤ sb.inodes ∧
        (squashfs_fragment_index_bytes sb.fragments = ts - sb.fragment_table_start ∧
          env.frag.index_read_ok = true ∧ env.frag.blocks_ok = true) ∧
        rft_check_dir_tables sb env.frag.index0 = true
      else
        sb.fragment_table_start = ts ∧ rft_check_dir_tables sb ts = true) := by
  unfold rft_fragments
  rw [read_fragment_table_eq_ite]
  split_ifs <;> simp_all

theorem rft_exports_true_iff (sb : SBlk) (env : TablesEnv) (ts : Int) :
    rft_exports sb env ts = true ↔
      (if sb.lookup_table_start ≠ SQUASHFS_INVALID_BLK then
        sb.lookup_table_start < ts ∧
        (squashfs_lookup_block_bytes sb.inodes = ts - sb.lookup_table_start ∧
          env.exports.read_ok = true) ∧
        rft_fragments sb env env.exports.index0 = true
      else rft_fragments sb env ts = true) := by
  unfold rft_exports
  rw [parse_exports_table_eq_ite]
  split_ifs <;> simp_all

theorem rft_uid_true_iff (sb : SBlk) (env : TablesEnv) (ts : Int) :
    rft_uid sb env ts = true ↔
      (sb.uid_start < ts ∧ sb.no_uids ≠ 0 ∧ env.uid_read_ok = true ∧
        rft_exports sb env sb.uid_start = true) := by
  unfold rft_uid
  split_ifs <;> simp_all

theorem read_filesystem_tables_true_iff (sb : SBlk) (env : TablesEnv) :
    read_filesystem_tables sb env = true ↔
      (if sb.no_guids ≠ 0 then
        sb.guid_start < sb.bytes_used ∧ env.guid_read_ok = true ∧
          rft_uid sb env sb.guid_start = true
      else sb.guid_start = 0 ∧ rft_uid sb env sb.bytes_used = true) := by
  unfold read_filesystem_tables
  split_ifs <;> simp_all

/-- Claim C1: `read_filesystem_tables` returns a failure outcome (never
a crash — the function is total) whenever any region-ordering check of
§4.3 is violated: success always implies every ordering check holds
(forward direction, for every environment), and under a benign
environment — all external reads succeed and the sub-readers' index
length checks pass — success holds if and only if every ordering check
holds. -/
theorem read_filesystem_tables_iff_region_ordering (sb : SBlk) (env : TablesEnv) :
    (read_filesystem_tables sb env = true → regionOrderingOK sb env = true) ∧
    (BenignEnv sb env → regionOrderingOK sb env = true →
      read_filesystem_tables sb env = true) := by
  constructor
  · intro h
    rw [read_filesystem_tables_true_iff] at h
    unfold regionOrderingOK
    simp only [Bool.and_eq_true, decide_eq_true_eq]
    by_cases hg : sb.no_guids ≠ 0 <;>
      by_cases hl : sb.lookup_table_start ≠ SQUASHFS_INVALID_BLK <;>
      by_cases hf : sb.fragments ≠ 0 <;>
      simp_all [rft_uid_true_iff, rft_exports_true_iff, rft_fragments_true_iff,
        rft_check_dir_tables_true_iff]
  · intro hben h
    obtain ⟨b1, b2, b3, b4, b5, b6, b7⟩ := hben
    rw [read_filesystem_tables_true_iff]
    unfold regionOrderingOK at h
    simp only [Bool.and_eq_true, decide_eq_true_eq] at h
    by_cases hg : sb.no_guids ≠ 0 <;>
      by_cases hl : sb.lookup_table_start ≠ SQUASHFS_INVALID_BLK <;>
      by_cases hf : sb.fragments ≠ 0 <;>
      simp_all [rft_uid_true_iff, rft_exports_true_iff, rft_fragments_true_iff,
        rft_check_dir_tables_true_iff, cursorAfterExports]

/-- Witness for C1: a concrete superblock and benign environment where
every region-ordering check holds and loading succeeds (gids present at
100, uids at 90, no export table, no fragments, directory table at 50,
inode table at 10, 200 bytes used). -/
theorem read_filesystem_tables_iff_region_ordering_witness :
    regionOrderingOK c1sb c1env = true ∧
    read_filesystem_tables c1sb c1env = true := by
  have h := read_filesystem_tables_iff_region_ordering c1sb c1env
  exact ⟨by decide,
    h.2 ⟨rfl, rfl, rfl, rfl, rfl, fun hx => absurd rfl hx, fun hx => absurd rfl hx⟩
      (by decide)⟩

/-! ### Invariants of the directory-stream parse -/

theorem parseEnts_names (sent hsb : Nat) :
    ∀ (n : Nat) (stream : List DirToken) (bytes : Int) (acc : List DirEnt)
      (out : List DirToken × Int × List DirEnt),
      parseEnts sent hsb n stream bytes acc = some out →
      ∀ e ∈ out.2.2, e ∈ acc ∨ check_name e.name = true := by
  intro n
  induction n with
  | zero =>
      intro stream bytes acc out h e he
      simp only [parseEnts, Option.some.injEq] at h
      subst h
      exact Or.inl he
  | succ n ih =>
      intro stream bytes acc out h e he
      match stream with
      | [] => exact Option.noConfusion h
      | DirToken.hdr _ :: rest => exact Option.noConfusion h
      | DirToken.ent e1 :: rest =>
        simp only [parseEnts] at h
        split at h
        · exact Option.noConfusion h
        · split at h
          · exact Option.noConfusion h
          · rename_i nm hnm
            split at h
            · exact Option.noConfusion h
            · rename_i hcheck
              have hmem := ih rest _ _ out h e he
              rcases hmem with hmem | hmem
              · rw [List.mem_append] at hmem
                rcases hmem with hmem | hmem
                · exact Or.inl hmem
                · right
                  rw [List.mem_singleton] at hmem
                  subst hmem
                  cases hc : check_name nm with
                  | true => rfl
                  | false => exact absurd hc hcheck
              · exact Or.inr hmem

theorem parseDir_names (shdr sent : Nat) :
    ∀ (fuel : Nat) (stream : List DirToken) (bytes size : Int)
      (acc L : List DirEnt),
      parseDir shdr sent fuel stream bytes size acc = some L →
      ∀ e ∈ L, e ∈ acc ∨ check_name e.name = true := by
  intro fuel
  induction fuel with
  | zero => intro stream bytes size acc L h; exact Option.noConfusion h
  | succ fuel ih =>
      intro stream bytes size acc L h e he
      simp only [parseDir] at h
      split at h
      · split at h
        · rename_i hd rest
          split at h
          · exact Option.noConfusion h
          · split at h
            · exact Option.noConfusion h
            · rename_i out2 rest2 bytes2 acc2 hents
              have hmem := ih rest2 bytes2 size acc2 L h e he
              rcases hmem with hmem | hmem
              · exact parseEnts_names sent hd.start_block _ rest _ acc
                  (rest2, bytes2, acc2) hents e hmem
              · exact Or.inr hmem
        · exact Option.noConfusion h
      · rw [Option.some.injEq] at h
        subst h
        exact Or.inl he

/-- Claim C6: `squashfs_opendir` runs the duplicate/order check exactly
once, after the entire entry stream has been consumed and every entry
materialized: whenever the parse phase completes with the full entry
list `L`, the returned directory is the one holding all of `L` if `L`
is duplicate-free and strictly sorted, and the failure outcome (no
partial directory) otherwise. -/
theorem squashfs_opendir_sorted_check_after_parse (shdr sent : Nat) (i : Inode)
    (stream : List DirToken) (L : List DirEnt) (hne : i.data ≠ 3)
    (hparse : parseDir shdr sent (((i.data : Int) - 3).toNat + 1) stream 0
      ((i.data : Int) - 3) [] = some L) :
    squashfs_opendir shdr sent i stream =
      (if check_directory L = true then
        some ⟨i.mode, i.uid, i.gid, i.time, i.xattr, L⟩
      else none) := by
  simp only [squashfs_opendir, if_neg hne, hparse]
  cases hc : check_directory L <;> simp [hc]

/-- Witness for C6: a stream materializing the out-of-order entries
`"b", "a"` parses fully, fails the post-parse sort check, and yields
the failure outcome rather than a partial directory. -/
theorem squashfs_opendir_sorted_check_after_parse_witness :
    parseDir 1 1 (((c6i.data : Int) - 3).toNat + 1) c6stream 0
      ((c6i.data : Int) - 3) [] = some c6ents ∧
    squashfs_opendir 1 1 c6i c6stream = none := by
  have h := squashfs_opendir_sorted_check_after_parse 1 1 c6i c6stream c6ents
    (by decide) (by decide)
  have hcd : check_directory c6ents = false := by decide
  refine ⟨by decide, ?_⟩
  rw [h, hcd]
  simp

/-- Claim C7: a directory entry named `"."` or `".."`, containing a path
separator, or whose stored name length reaches the maximum name-field
width aborts the entry loop as corruption; a failed parse makes the
whole `squashfs_opendir` return the failure outcome; and every entry of
a successfully returned directory passed name validation. -/
theorem squashfs_opendir_name_validation (shdr sent hsb : Nat) :
    (∀ (e : RawDirEntry) (n : Nat) (rest : List DirToken) (bytes : Int)
        (acc : List DirEnt),
      (SQUASHFS_NAME_LEN ≤ e.size ∨
        (∀ nm, e.name = some nm →
          nm = "." ∨ nm = ".." ∨ nm.data.contains '/' = true)) →
      parseEnts sent hsb (n + 1) (DirToken.ent e :: rest) bytes acc = none) ∧
    (∀ (i : Inode) (stream : List DirToken), i.data ≠ 3 →
      parseDir shdr sent (((i.data : Int) - 3).toNat + 1) stream 0
        ((i.data : Int) - 3) [] = none →
      squashfs_opendir shdr sent i stream = none) ∧
    (∀ (i : Inode) (stream : List DirToken) (d : Dir3),
      squashfs_opendir shdr sent i stream = some d →
      ∀ e ∈ d.entries, check_name e.name = true) := by
  refine ⟨?_, ?_, ?_⟩
  · intro e n rest bytes acc hbad
    simp only [parseEnts]
    by_cases hsize : e.size ≥ SQUASHFS_NAME_LEN
    · rw [if_pos hsize]
    · rw [if_neg hsize]
      rcases hbad with hbad | hbad
      · exact absurd hbad hsize
      · cases hname : e.name with
        | none => rfl
        | some nm =>
          have hfalse : check_name nm = false := by
            rcases hbad nm hname with h | h | h
            · subst h; rfl
            · subst h; rfl
            · have hmem : '/' ∈ nm.data := by simpa using h
              simp [check_name, hmem]
          simp [hfalse]
  · intro i stream hne hfail
    simp only [squashfs_opendir, if_neg hne, hfail]
  · intro i stream d hok e he
    simp only [squashfs_opendir] at hok
    split at hok
    · rw [Option.some.injEq] at hok
      subst hok
      simp at he
    · split at hok
      · exact Option.noConfusion hok
      · rename_i ents hparse
        split at hok
        · exact Option.noConfusion hok
        · rw [Option.some.injEq] at hok
          subst hok
          have hmem := parseDir_names shdr sent _ stream 0 _ [] ents hparse e he
          rcases hmem with hmem | hmem
          · exact absurd hmem (List.not_mem_nil e)
          · exact hmem

/-- Witness for C7: an entry named `"."` aborts the entry loop, and a
truncated stream (byte budget 1 with no tokens) makes
`squashfs_opendir` fail. -/
theorem squashfs_opendir_name_validation_witness :
    parseEnts 11 5 1 [DirToken.ent ⟨0, 1, 0, some "."⟩] 0 [] = none ∧
    squashfs_opendir 12 11 c7i [] = none := by
  have h := squashfs_opendir_name_validation 12 11 5
  refine ⟨h.1 ⟨0, 1, 0, some "."⟩ 0 [] 0 [] (Or.inr ?_), h.2.1 c7i [] (by decide) (by decide)⟩
  intro nm hnm
  left
  simpa using hnm.symm

end Unsquash3
